import Mathlib

/-!
Shallow embedding of the clubs pallet (src/pallets/clubs/src/lib.rs).

Storage is modelled as total functions from keys to `Option` records,
balances as a total function from account ids to amounts, and the block
number as a field of the state. Machine integers are `Nat` with explicit
clamping (`satAdd`, `satMul` mirror `saturating_add` / `saturating_mul`)
or wrapping (`% 2 ^ w` where the source uses a plain arithmetic operator):
`ClubId` is `u32`, block numbers are `u64`, balances are `u128`, and
`years` is `u16`, matching the mock runtime's concrete types.

Each dispatchable is a function `Cfg → State → args → DispatchResult × State`
translated line by line from the source; an error constructor is returned
at exactly the program point where the corresponding `ensure!` or `?`
fires, together with the state as it stands at that point, so that
"no storage mutation before the error" is a provable fact rather than a
modelling convention.
-/

/-- Maximum value of a `u32` (the `ClubId` type). -/
def U32MAX : Nat := 2 ^ 32 - 1

/-- Maximum value of a `u64` (the mock runtime's `BlockNumber` type). -/
def U64MAX : Nat := 2 ^ 64 - 1

/-- Maximum value of a `u128` (the mock runtime's `Balance` type). -/
def U128MAX : Nat := 2 ^ 128 - 1

/-- `saturating_add` on an unsigned integer type with maximum value `m`. -/
def satAdd (m a b : Nat) : Nat := min (a + b) m

/-- `saturating_mul` on an unsigned integer type with maximum value `m`. -/
def satMul (m a b : Nat) : Nat := min (a * b) m

/-- Pointwise update of a one-key storage map. -/
def updateMap {α : Type} (f : Nat → α) (k : Nat) (v : α) : Nat → α :=
  fun i => if i = k then v else f i

/-- Pointwise update of a double storage map. -/
def update2 {α : Type} (f : Nat → Nat → α) (k1 k2 : Nat) (v : α) : Nat → Nat → α :=
  fun i j => if i = k1 ∧ j = k2 then v else f i j

/-- Club details (`ClubDetails` in the source): name bytes, owner account,
annual membership fee. -/
structure ClubDetails where
  name : List Nat
  owner : Nat
  annual_fee : Nat
  deriving DecidableEq

/-- Club member details (`MemberDetails` in the source). -/
structure MemberDetails where
  expires_at : Nat
  deriving DecidableEq

/-- Errors of the pallet (`Error<T>` in the source), plus `insufficientFunds`
standing for the error class returned by the external balance ledger's
`withdraw`, and `badOrigin` for a failed origin check. -/
inductive DispatchError where
  | clubIdOverflow
  | noPermission
  | notFound
  | alreadyExists
  | subscriptionTooLong
  | sameOwner
  | sameFee
  | insufficientFunds
  | badOrigin
  deriving DecidableEq

/-- Outcome of a dispatchable call (`DispatchResult` in the source). -/
inductive DispatchResult where
  | ok
  | err (e : DispatchError)
  deriving DecidableEq

/-- Pallet configuration constants (`Config` in the source; the
existential deposit belongs to the external balances ledger). -/
structure Cfg where
  maxSubscriptionLength : Nat
  blocksPerYear : Nat
  clubCreationFee : Nat
  existentialDeposit : Nat
  deriving DecidableEq

/-- Pallet storage plus the external collaborators' observable state:
the `Clubs` counted map (function plus its live count), the `Members`
double map, the balance ledger, and the logical clock. -/
structure State where
  clubs : Nat → Option ClubDetails
  clubCount : Nat
  members : Nat → Nat → Option MemberDetails
  balances : Nat → Nat
  blockNumber : Nat

/-- Modelled from the spec: the external balance ledger's
`withdraw(account, amount)` in "keep account alive" mode — it fails if the
amount exceeds the balance or the withdrawal would drop the account below
the minimum-balance floor `ed`, and a zero-amount withdrawal always
succeeds; on success it returns the new balance. The ledger itself is an
external collaborator (§6 of the spec), not part of this repository. -/
def withdraw (ed bal amt : Nat) : Option Nat :=
  if amt = 0 then some bal
  else if amt ≤ bal ∧ ed ≤ bal - amt then some (bal - amt) else none

/-- `create_club`: assigns `next_id = count.saturating_add(1)`, defensively
checks the slot is free, withdraws the creation fee from the caller, and
inserts a club with `annual_fee = 0`. `authorized` models the external
`RootOrigin::ensure_origin` check. The counted map's counter increment is
saturating, as in `CountedStorageMap`. -/
def create_club (cfg : Cfg) (s : State) (authorized : Bool) (who : Nat)
    (name : List Nat) (owner : Nat) : DispatchResult × State :=
  if authorized = false then (.err .badOrigin, s)
  else
    let next_id := satAdd U32MAX s.clubCount 1
    if (s.clubs next_id).isSome then (.err .clubIdOverflow, s)
    else
      match withdraw cfg.existentialDeposit (s.balances who) cfg.clubCreationFee with
      | none => (.err .insufficientFunds, s)
      | some nb =>
        (.ok, { s with
                  balances := updateMap s.balances who nb,
                  clubs := updateMap s.clubs next_id (some ⟨name, owner, 0⟩),
                  clubCount := satAdd U32MAX s.clubCount 1 })

/-- `add_member`: owner-only insertion of a fresh membership record with
`MemberDetails::default()`, i.e. `expires_at = 0`; no fee is withdrawn. -/
def add_member (cfg : Cfg) (s : State) (who club_id member_id : Nat) :
    DispatchResult × State :=
  match s.clubs club_id with
  | none => (.err .notFound, s)
  | some club =>
    if club.owner = who then
      if (s.members club_id member_id).isSome then (.err .alreadyExists, s)
      else (.ok, { s with members := update2 s.members club_id member_id (some ⟨0⟩) })
    else (.err .noPermission, s)

/-- The fee charged by `extend_membership`: the source computes
`club_details.annual_fee * years.into()` with the plain `*` operator on the
`Balance` type, which wraps modulo `2 ^ 128` (release-mode semantics; it is
not `saturating_mul`). -/
def extendFee (annual_fee years : Nat) : Nat := (annual_fee * years) % 2 ^ 128

/-- The new expiration computed by `extend_membership`:
`base.saturating_add(blocks_per_year.saturating_mul(years))` on the `u64`
block-number type. -/
def newExpiry (base blocks_per_year years : Nat) : Nat :=
  satAdd U64MAX base (satMul U64MAX blocks_per_year years)

/-- Tail of `extend_membership` after the renewal base `base` has been
fixed: compute the saturated expiration, look the club up, withdraw
`annual_fee * years` (the absent-club branch is the source's
`defensive!("Club exists; qed")`, which logs and falls through in a
production build), then insert the updated membership record. -/
def extendCommit (cfg : Cfg) (s : State) (who club_id years base : Nat) :
    DispatchResult × State :=
  let expires_at := newExpiry base cfg.blocksPerYear years
  match s.clubs club_id with
  | some club_details =>
    match withdraw cfg.existentialDeposit (s.balances who)
        (extendFee club_details.annual_fee years) with
    | none => (.err .insufficientFunds, s)
    | some nb =>
      (.ok, { s with
                balances := updateMap s.balances who nb,
                members := update2 s.members club_id who (some ⟨expires_at⟩) })
  | none =>
    (.ok, { s with members := update2 s.members club_id who (some ⟨expires_at⟩) })

/-- `extend_membership`: bounds `years` by `MaxSubscriptionLength`, requires
an existing membership, resets the renewal base to the current block for a
lapsed subscription, otherwise enforces the cumulative cap
`current_len + years <= MaxSubscriptionLength` (the `u64` addition is the
source's plain `+`, hence taken modulo `2 ^ 64`), and commits. -/
def extend_membership (cfg : Cfg) (s : State) (who club_id years : Nat) :
    DispatchResult × State :=
  if years ≤ cfg.maxSubscriptionLength then
    match s.members club_id who with
    | none => (.err .notFound, s)
    | some details =>
      let current_block := s.blockNumber
      if details.expires_at < current_block then
        extendCommit cfg s who club_id years current_block
      else
        let current_len := (details.expires_at - current_block) / cfg.blocksPerYear
        if (current_len + years) % 2 ^ 64 ≤ cfg.maxSubscriptionLength then
          extendCommit cfg s who club_id years details.expires_at
        else (.err .subscriptionTooLong, s)
  else (.err .subscriptionTooLong, s)

/-- `transfer_ownership`: rejects a self-transfer, then performs an
owner-only in-place owner swap. -/
def transfer_ownership (cfg : Cfg) (s : State) (who club_id owner_id : Nat) :
    DispatchResult × State :=
  if who = owner_id then (.err .sameOwner, s)
  else
    match s.clubs club_id with
    | none => (.err .notFound, s)
    | some club =>
      if club.owner = who then
        (.ok, { s with
                  clubs := updateMap s.clubs club_id (some { club with owner := owner_id }) })
      else (.err .noPermission, s)

/-- `set_annual_fee`: owner-only in-place fee update, rejecting a no-op
update to the currently stored fee. -/
def set_annual_fee (cfg : Cfg) (s : State) (who club_id annual_fee : Nat) :
    DispatchResult × State :=
  match s.clubs club_id with
  | none => (.err .notFound, s)
  | some club =>
    if club.owner = who then
      if club.annual_fee = annual_fee then (.err .sameFee, s)
      else
        (.ok, { s with
                  clubs := updateMap s.clubs club_id (some { club with annual_fee := annual_fee }) })
    else (.err .noPermission, s)

/-- One call to any of the five dispatchables (with its arguments), or an
advance of the external logical clock between calls. -/
inductive Op where
  | createClub (authorized : Bool) (who : Nat) (name : List Nat) (owner : Nat)
  | addMember (who club_id member_id : Nat)
  | extendMembership (who club_id years : Nat)
  | transferOwnership (who club_id owner_id : Nat)
  | setAnnualFee (who club_id fee : Nat)
  | advanceBlock (n : Nat)

/-- The state after one operation (the post-state both on success and on
error; errors leave the state as returned by the call). -/
def applyOp (cfg : Cfg) (s : State) : Op → State
  | .createClub a w n o => (create_club cfg s a w n o).2
  | .addMember w c m => (add_member cfg s w c m).2
  | .extendMembership w c y => (extend_membership cfg s w c y).2
  | .transferOwnership w c o => (transfer_ownership cfg s w c o).2
  | .setAnnualFee w c f => (set_annual_fee cfg s w c f).2
  | .advanceBlock n => { s with blockNumber := s.blockNumber + n }

/-- Genesis state: no clubs, no members, arbitrary balances and clock. -/
def initState (bal : Nat → Nat) (bn : Nat) : State :=
  { clubs := fun _ => none
    clubCount := 0
    members := fun _ _ => none
    balances := bal
    blockNumber := bn }

/-- A state reachable from some genesis state by a sequence of operations. -/
def Reachable (cfg : Cfg) (s : State) : Prop :=
  ∃ bal bn ops, s = List.foldl (applyOp cfg) (initState bal bn) ops

/-- The club-id invariant: the live count fits in a `u32` and a club record
exists for id `i` exactly when `1 ≤ i ≤ count`. -/
def ClubsInv (s : State) : Prop :=
  s.clubCount ≤ U32MAX ∧ ∀ i : Nat, (s.clubs i).isSome ↔ (1 ≤ i ∧ i ≤ s.clubCount)

/-- The mock runtime's configuration: `BlocksPerYear = 100`,
`MaxSubscriptionLength = 100`, `ClubCreationFee = 10`,
`ExistentialDeposit = 1`. -/
def mockCfg : Cfg :=
  { maxSubscriptionLength := 100
    blocksPerYear := 100
    clubCreationFee := 10
    existentialDeposit := 1 }

example : (withdraw 1 5 10) = none := by decide
example : (withdraw 1 5 0) = some 5 := by decide
example : newExpiry 0 100 1 = 100 := by decide

/-! ### Concrete scenario states used by witnesses and counterexamples -/

/-- A state with one club (id 1, owner 1, fee 0) and a membership for
account 2 with `expires_at = 0`, at block 0. -/
def sC3 : State :=
  { clubs := updateMap (fun _ => none) 1 (some ⟨[], 1, 0⟩)
    clubCount := 1
    members := update2 (fun _ _ => none) 1 2 (some ⟨0⟩)
    balances := fun _ => 100
    blockNumber := 0 }

/-- A state with a membership record for (club 1, account 7) but no club
record at all — the state that makes the defensive club-existence check of
`extend_membership` fail. -/
def sC6 : State :=
  { clubs := fun _ => none
    clubCount := 0
    members := update2 (fun _ _ => none) 1 7 (some ⟨5⟩)
    balances := fun _ => 100
    blockNumber := 10 }

/-- The genesis state with every balance 100, at block 0. -/
def sEmpty : State := initState (fun _ => 100) 0

/-- A state with one club (id 1, owner 1, fee 0) and a membership for
account 5 with `expires_at = 0`. -/
def sC8 : State :=
  { clubs := updateMap (fun _ => none) 1 (some ⟨[], 1, 0⟩)
    clubCount := 1
    members := update2 (fun _ _ => none) 1 5 (some ⟨0⟩)
    balances := fun _ => 100
    blockNumber := 0 }

/-- A state with one club (id 1, owner 1, fee 7), a membership for
account 2 with `expires_at = 0`, every balance 3 (too small to pay the
fee of 7 while keeping the existential deposit of 1), at block 10. -/
def sC1 : State :=
  { clubs := updateMap (fun _ => none) 1 (some ⟨[], 1, 7⟩)
    clubCount := 1
    members := update2 (fun _ _ => none) 1 2 (some ⟨0⟩)
    balances := fun _ => 3
    blockNumber := 10 }

/-- A state with one club (id 1, owner 1, fee 0) and a membership for
account 2 with `expires_at = 9999`, at block 0 — so with
`BlocksPerYear = 100` the remaining subscription length is 99 years. -/
def sC4 : State :=
  { clubs := updateMap (fun _ => none) 1 (some ⟨[], 1, 0⟩)
    clubCount := 1
    members := update2 (fun _ _ => none) 1 2 (some ⟨9999⟩)
    balances := fun _ => 100
    blockNumber := 0 }

/-! ### C2 — saturating arithmetic -/

/-- C2 counterexample: the fee computation of `extend_membership` is the
plain multiplication `annual_fee * years` on the `u128` balance type, not a
saturating one: at `annual_fee = 2 ^ 128 - 1`, `years = 2`, the computed
fee wraps and differs from the clamped-to-maximum value the claim
requires. -/
theorem C2_fee_not_saturating_cex :
    extendFee U128MAX 2 ≠ satMul U128MAX U128MAX 2 := by decide

/-- C2 (amended): the expiration computation
`base + per_year * years` of `extend_membership` is saturating — for every
input it equals the true sum clamped to the `u64` maximum, so it never
wraps — but the fee computation `annual_fee * years` is an unchecked
multiplication that wraps modulo `2 ^ 128` on overflow instead of clamping:
at `annual_fee = 2 ^ 128 - 1`, `years = 2` it yields `2 ^ 128 - 2`, not the
saturated `2 ^ 128 - 1`. -/
theorem C2_saturating_amended :
    (∀ base bpy years : Nat,
        newExpiry base bpy years = min (base + bpy * years) U64MAX) ∧
    extendFee U128MAX 2 = U128MAX - 1 ∧
    U128MAX - 1 ≠ satMul U128MAX U128MAX 2 := by
  refine ⟨fun base bpy years => ?_, by decide, by decide⟩
  simp only [newExpiry, satAdd, satMul, Nat.min_def]
  split_ifs <;> omega

/-! ### C3 — renewal arithmetic -/

/-- C3: with `BlocksPerYear = 100`, a membership stored with
`expires_at = 0` extended by one year at block 0 persists
`expires_at = 100`; extending the resulting membership again by one year at
block 50 persists `expires_at = 200`, so the remaining 50 blocks are not
lost. -/
theorem C3_renewal_arithmetic :
    (extend_membership mockCfg sC3 2 1 1).1 = .ok ∧
    (extend_membership mockCfg sC3 2 1 1).2.members 1 2 = some ⟨100⟩ ∧
    (extend_membership mockCfg
      { (extend_membership mockCfg sC3 2 1 1).2 with blockNumber := 50 } 2 1 1).1 = .ok ∧
    (extend_membership mockCfg
      { (extend_membership mockCfg sC3 2 1 1).2 with blockNumber := 50 } 2 1 1).2.members 1 2
      = some ⟨200⟩ := by decide

/-! ### C6 — defensive check does not abort -/

/-- C6 counterexample: in the state `sC6` the membership record for
(club 1, account 7) exists but the club record is absent, so the defensive
club-existence check inside `extend_membership` fails; yet the call
succeeds and mutates storage — the stored `expires_at` changes from 5 to
110 — contradicting the claim that the operation fails safely with no
storage mutation. -/
theorem C6_defensive_cex :
    sC6.members 1 7 = some ⟨5⟩ ∧ sC6.clubs 1 = none ∧
    (extend_membership mockCfg sC6 7 1 1).1 = .ok ∧
    (extend_membership mockCfg sC6 7 1 1).2.members 1 7 = some ⟨110⟩ := by decide

/-! ### C7 — ownership transfer -/

/-- C7 counterexample: `transfer_ownership` with a new owner distinct from
the caller does not always succeed — at the genesis state (no clubs) the
call with caller 1, club 1, new owner 2 fails with `NotFound`. -/
theorem C7_transfer_cex :
    (1 : Nat) ≠ 2 ∧
    (transfer_ownership mockCfg sEmpty 1 1 2).1 = .err .notFound := by decide

/-! ### C8 — duplicate membership -/

/-- C8 counterexample: a state in which a membership record exists for
(club 1, account 5) and the club exists with owner 1, but the call is made
by account 2 — it fails with `NoPermission`, not `AlreadyExists`, because
the owner check precedes the duplicate check. -/
theorem C8_add_member_cex :
    sC8.members 1 5 = some ⟨0⟩ ∧
    (add_member mockCfg sC8 2 1 5).1 = .err .noPermission ∧
    (add_member mockCfg sC8 2 1 5).1 ≠ .err .alreadyExists := by decide

/-! ### C1 — fee atomicity of extend_membership -/

/-- C1: `extend_membership` is fee-atomic — in any state, whenever the call
reaches the balance withdrawal of `club.annual_fee * years` (the membership
exists, `years` is within the cap, the cumulative cap passes, and the club
record exists) and that withdrawal fails, the call returns the ledger's
insufficient-funds error and the state, the stored membership record's
`expires_at` included, is byte-for-byte the pre-call state. -/
theorem C1_extend_membership_fee_atomic (cfg : Cfg) (s : State)
    (who club_id years : Nat) (d : MemberDetails) (c : ClubDetails)
    (hy : years ≤ cfg.maxSubscriptionLength)
    (hm : s.members club_id who = some d)
    (hc : s.clubs club_id = some c)
    (hcap : d.expires_at < s.blockNumber ∨
      ((d.expires_at - s.blockNumber) / cfg.blocksPerYear + years) % 2 ^ 64
        ≤ cfg.maxSubscriptionLength)
    (hw : withdraw cfg.existentialDeposit (s.balances who)
        (extendFee c.annual_fee years) = none) :
    extend_membership cfg s who club_id years = (.err .insufficientFunds, s) := by
  simp only [extend_membership, extendCommit, hm, if_pos hy]
  split
  · simp [hc, hw]
  · rename_i hnl
    have hcap' : ((d.expires_at - s.blockNumber) / cfg.blocksPerYear + years) % 2 ^ 64
        ≤ cfg.maxSubscriptionLength := by
      rcases hcap with h | h
      · exact absurd h hnl
      · exact h
    rw [if_pos hcap']
    simp [hc, hw]

/-- C1 witness: in the concrete state `sC1` (club fee 7, balance 3,
existential deposit 1, lapsed membership) the withdrawal fails and the call
returns the insufficient-funds error with the state unchanged. -/
theorem C1_extend_membership_fee_atomic_witness :
    extend_membership mockCfg sC1 2 1 1 = (.err .insufficientFunds, sC1) :=
  C1_extend_membership_fee_atomic mockCfg sC1 2 1 1 ⟨0⟩ ⟨[], 1, 7⟩
    (by decide) rfl rfl (Or.inl (by decide)) rfl

/-! ### C6 (amended) — behavior of the defensive branch -/

/-- C6 (amended): when the defensive club-existence check of
`extend_membership` fails — the membership record exists and the other
checks pass but the club record is absent — the operation does not abort:
it skips the fee withdrawal and still persists the recomputed `expires_at`,
returning success; only the membership record is written (balances, clubs
and the rest of the state are untouched). -/
theorem C6_defensive_amended (cfg : Cfg) (s : State) (who club_id years : Nat)
    (d : MemberDetails)
    (hy : years ≤ cfg.maxSubscriptionLength)
    (hm : s.members club_id who = some d)
    (hc : s.clubs club_id = none)
    (hcap : d.expires_at < s.blockNumber ∨
      ((d.expires_at - s.blockNumber) / cfg.blocksPerYear + years) % 2 ^ 64
        ≤ cfg.maxSubscriptionLength) :
    extend_membership cfg s who club_id years =
      (.ok, { s with members := (update2 s.members club_id who
        (some ⟨newExpiry
          (if d.expires_at < s.blockNumber then s.blockNumber else d.expires_at)
          cfg.blocksPerYear years⟩)) }) := by
  simp only [extend_membership, extendCommit, hm, if_pos hy]
  split
  · rename_i hl
    simp [hc, if_pos hl]
  · rename_i hnl
    have hcap' : ((d.expires_at - s.blockNumber) / cfg.blocksPerYear + years) % 2 ^ 64
        ≤ cfg.maxSubscriptionLength := by
      rcases hcap with h | h
      · exact absurd h hnl
      · exact h
    rw [if_pos hcap']
    simp [hc, if_neg hnl]

/-- C6 witness: at the concrete state `sC6` the defensive branch fires and
the membership record is rewritten to `expires_at = 110` with success. -/
theorem C6_defensive_amended_witness :
    extend_membership mockCfg sC6 7 1 1 =
      (.ok, { sC6 with members := update2 sC6.members 1 7 (some ⟨110⟩) }) :=
  C6_defensive_amended mockCfg sC6 7 1 1 ⟨5⟩ (by decide) rfl rfl (Or.inl (by decide))

/-! ### C7 (amended) — ownership transfer -/

/-- C7 (amended): `transfer_ownership` called with a new owner equal to the
caller always fails with `SameOwner` and no state change; called with a
distinct new owner it succeeds provided the club exists and the caller is
its owner, and on success the only change is the club's `owner` field — the
club's `annual_fee` and `name`, every membership record (including one held
by the new owner), the balances, the club count and the clock are all
unchanged. -/
theorem C7_transfer_ownership_amended (cfg : Cfg) (s : State)
    (who club_id owner_id : Nat) (c : ClubDetails)
    (hno : who ≠ owner_id) (hc : s.clubs club_id = some c)
    (hown : c.owner = who) :
    (∀ (t : State) (w k : Nat), transfer_ownership cfg t w k w = (.err .sameOwner, t)) ∧
    transfer_ownership cfg s who club_id owner_id =
      (.ok, { s with clubs := (updateMap s.clubs club_id
        (some { c with owner := owner_id })) }) := by
  constructor
  · intro t w k
    simp [transfer_ownership]
  · simp [transfer_ownership, hno, hc, hown]

/-- C7 witness: at the concrete state `sC8` (club 1 owned by 1, member 5
holding a membership) the transfer from 1 to 2 succeeds and only the owner
field changes; the `SameOwner` conjunct is instantiated as well. -/
theorem C7_transfer_ownership_amended_witness :
    (∀ (t : State) (w k : Nat),
      transfer_ownership mockCfg t w k w = (.err .sameOwner, t)) ∧
    transfer_ownership mockCfg sC8 1 1 2 =
      (.ok, { sC8 with clubs := updateMap sC8.clubs 1 (some ⟨[], 2, 0⟩) }) :=
  C7_transfer_ownership_amended mockCfg sC8 1 1 2 ⟨[], 1, 0⟩ (by decide) rfl rfl


/-! ### C8 (amended) — duplicate membership is rejected -/

/-- C8 (amended): in every state where the club exists, the caller is the
club's owner, and a membership record already exists for
(club_id, member), `add_member` fails with `AlreadyExists` and leaves the
whole state — the existing record included — unchanged; in particular a
second `add_member` by the owner immediately following a successful one
always fails this way (the general statement needs the owner/existence
preconditions, since a non-owner caller is rejected with `NoPermission`
before the duplicate check is reached). -/
theorem C8_add_member_duplicate_amended :
    (∀ (cfg : Cfg) (s : State) (who club_id member_id : Nat)
        (c : ClubDetails) (d : MemberDetails),
      s.clubs club_id = some c → c.owner = who →
      s.members club_id member_id = some d →
      add_member cfg s who club_id member_id = (.err .alreadyExists, s)) ∧
    (∀ (cfg : Cfg) (s : State) (who club_id member_id : Nat) (s' : State),
      add_member cfg s who club_id member_id = (.ok, s') →
      add_member cfg s' who club_id member_id = (.err .alreadyExists, s')) := by
  have dup : ∀ (cfg : Cfg) (s : State) (who club_id member_id : Nat)
      (c : ClubDetails) (d : MemberDetails),
      s.clubs club_id = some c → c.owner = who →
      s.members club_id member_id = some d →
      add_member cfg s who club_id member_id = (.err .alreadyExists, s) := by
    intro cfg s who club_id member_id c d hc hown hm
    simp [add_member, hc, hown, hm]
  refine ⟨dup, ?_⟩
  intro cfg s who club_id member_id s' h
  simp only [add_member] at h
  split at h
  · simp at h
  · rename_i c hc
    split at h
    · rename_i hown
      split at h
      · simp at h
      · simp only [Prod.mk.injEq, true_and] at h
        subst h
        exact dup cfg _ who club_id member_id c ⟨0⟩ hc hown (by simp [update2])
    · simp at h

/-- C8 witness: at the concrete state `sC8`, `add_member` by the owner for
the already-enrolled account 5 fails with `AlreadyExists` and leaves the
state unchanged. -/
theorem C8_add_member_duplicate_amended_witness :
    add_member mockCfg sC8 1 1 5 = (.err .alreadyExists, sC8) :=
  C8_add_member_duplicate_amended.1 mockCfg sC8 1 1 5 ⟨[], 1, 0⟩ ⟨0⟩ rfl rfl rfl

/-! ### C9 — add_member inserts expires_at = 0 without touching balances -/

/-- C9: every successful `add_member` produces exactly the pre-state with a
membership record `expires_at = 0` inserted for (club_id, member); in
particular no balance withdrawal is performed — the ledger's balances map
is unchanged by enrollment. -/
theorem C9_add_member_inserts_zero (cfg : Cfg) (s : State)
    (who club_id member_id : Nat) (s' : State)
    (h : add_member cfg s who club_id member_id = (.ok, s')) :
    s' = { s with members := (update2 s.members club_id member_id (some ⟨0⟩)) } ∧
    s'.members club_id member_id = some ⟨0⟩ ∧
    s'.balances = s.balances := by
  simp only [add_member] at h
  split at h
  · simp at h
  · split at h
    · split at h
      · simp at h
      · simp only [Prod.mk.injEq, true_and] at h
        subst h
        exact ⟨rfl, by simp [update2], rfl⟩
    · simp at h

/-- A state with one club (id 1, owner 1, fee 0) and no members. -/
def sC9 : State :=
  { clubs := updateMap (fun _ => none) 1 (some ⟨[], 1, 0⟩)
    clubCount := 1
    members := fun _ _ => none
    balances := fun _ => 100
    blockNumber := 0 }

/-- C9 witness: a successful enrollment at the concrete state `sC9` — club
1 owned by caller 1 enrolls account 5; the result state is the insertion of
`expires_at = 0` and the balances are untouched. -/
theorem C9_add_member_inserts_zero_witness :
    ({ sC9 with members := (update2 sC9.members 1 5 (some ⟨0⟩)) } : State)
        = { sC9 with members := (update2 sC9.members 1 5 (some ⟨0⟩)) } ∧
    ({ sC9 with members := (update2 sC9.members 1 5 (some ⟨0⟩)) } : State).members 1 5
        = some ⟨0⟩ ∧
    ({ sC9 with members := (update2 sC9.members 1 5 (some ⟨0⟩)) } : State).balances
        = sC9.balances :=
  C9_add_member_inserts_zero mockCfg sC9 1 1 5
    { sC9 with members := (update2 sC9.members 1 5 (some ⟨0⟩)) } (by rfl)

/-! ### C10 — zero-year extension of a lapsed membership -/

/-- Replacing a key of a one-key map by its current value is the
identity. -/
theorem updateMap_self {α : Type} (f : Nat → α) (k : Nat) :
    updateMap f k (f k) = f := by
  funext i
  unfold updateMap
  split
  · rename_i h; subst h; rfl
  · rfl

/-- C10: for every lapsed membership (stored `expires_at` strictly below
the current block) of an existing club, `extend_membership` with
`years = 0` succeeds, the withdrawn fee is zero (the balances map is
byte-for-byte unchanged), and the persisted `expires_at` is exactly the
current block — the membership becomes active at that block without
payment. -/
theorem C10_lapsed_zero_years (cfg : Cfg) (s : State) (who club_id : Nat)
    (d : MemberDetails) (c : ClubDetails)
    (hm : s.members club_id who = some d)
    (hc : s.clubs club_id = some c)
    (hlapsed : d.expires_at < s.blockNumber)
    (hbn : s.blockNumber ≤ U64MAX) :
    extend_membership cfg s who club_id 0 =
      (.ok, { s with members := (update2 s.members club_id who
        (some ⟨s.blockNumber⟩)) }) := by
  have hexp : newExpiry s.blockNumber cfg.blocksPerYear 0 = s.blockNumber := by
    simp [newExpiry, satAdd, satMul]
    omega
  have hw : withdraw cfg.existentialDeposit (s.balances who)
      (extendFee c.annual_fee 0) = some (s.balances who) := by
    simp [withdraw, extendFee]
  simp only [extend_membership, extendCommit, hm, if_pos (Nat.zero_le _),
    if_pos hlapsed, hc, hw, hexp, updateMap_self]

/-- C10 witness: at the concrete state `sC1` (membership lapsed at block
10), a zero-year extension succeeds without payment and persists
`expires_at = 10`. -/
theorem C10_lapsed_zero_years_witness :
    extend_membership mockCfg sC1 2 1 0 =
      (.ok, { sC1 with members := (update2 sC1.members 1 2 (some ⟨10⟩)) }) :=
  C10_lapsed_zero_years mockCfg sC1 2 1 ⟨0⟩ ⟨[], 1, 7⟩ rfl rfl (by decide) (by decide)

/-! ### C4 — cumulative subscription cap -/

/-- The commit tail of `extend_membership` never produces the
`SubscriptionTooLong` error: it either succeeds or fails with the ledger's
insufficient-funds error. -/
theorem extendCommit_fst (cfg : Cfg) (s : State) (who club_id years base : Nat) :
    (extendCommit cfg s who club_id years base).1 = .ok ∨
    (extendCommit cfg s who club_id years base).1 = .err .insufficientFunds := by
  unfold extendCommit
  split
  · split
    · right; rfl
    · left; rfl
  · left; rfl

/-- C4: for every still-active membership (stored `expires_at` at or above
the current block), `extend_membership` fails with `SubscriptionTooLong`
exactly when `remaining_years + years > MaxSubscriptionLength`, where
`remaining_years = floor((expires_at - now) / blocks_per_year)` (the
hypothesis `hnw` states that this sum fits in the `u64` block-number type,
so the source's plain addition does not wrap; it holds for any realistic
configuration). -/
theorem C4_cumulative_cap (cfg : Cfg) (s : State) (who club_id years : Nat)
    (d : MemberDetails)
    (hm : s.members club_id who = some d)
    (hact : s.blockNumber ≤ d.expires_at)
    (hnw : (d.expires_at - s.blockNumber) / cfg.blocksPerYear + years < 2 ^ 64) :
    (extend_membership cfg s who club_id years).1 = .err .subscriptionTooLong ↔
      cfg.maxSubscriptionLength <
        (d.expires_at - s.blockNumber) / cfg.blocksPerYear + years := by
  simp only [extend_membership, hm]
  by_cases hy : years ≤ cfg.maxSubscriptionLength
  · rw [if_pos hy, if_neg (Nat.not_lt.mpr hact), Nat.mod_eq_of_lt hnw]
    by_cases hcap :
        (d.expires_at - s.blockNumber) / cfg.blocksPerYear + years
          ≤ cfg.maxSubscriptionLength
    · rw [if_pos hcap]
      constructor
      · intro habs
        rcases extendCommit_fst cfg s who club_id years d.expires_at with h | h <;>
          rw [habs] at h <;> exact absurd h (by simp)
      · intro habs
        exact absurd habs (Nat.not_lt.mpr hcap)
    · rw [if_neg hcap]
      simp [Nat.lt_of_not_le hcap]
  · rw [if_neg hy]
    have hgt : cfg.maxSubscriptionLength <
        (d.expires_at - s.blockNumber) / cfg.blocksPerYear + years :=
      lt_of_lt_of_le (Nat.lt_of_not_le hy) (Nat.le_add_left _ _)
    simp [hgt]

/-- C4 witness: with the mock configuration (`MaxSubscriptionLength = 100`,
`BlocksPerYear = 100`) and a membership with 99 remaining years
(`expires_at = 9999` at block 0), a request of 2 further years is rejected
with `SubscriptionTooLong` while a request of 1 year is accepted. -/
theorem C4_cumulative_cap_witness :
    (extend_membership mockCfg sC4 2 1 2).1 = .err .subscriptionTooLong ∧
    (extend_membership mockCfg sC4 2 1 1).1 = .ok := by
  constructor
  · exact (C4_cumulative_cap mockCfg sC4 2 1 2 ⟨9999⟩ rfl (by decide)
      (by decide)).mpr (by decide)
  · decide

/-! ### C5 — sequential club ids -/

/-- The genesis state satisfies the club-id invariant. -/
theorem clubsInv_init (bal : Nat → Nat) (bn : Nat) : ClubsInv (initState bal bn) := by
  refine ⟨Nat.zero_le _, fun i => ?_⟩
  simp [initState]
  omega

/-- When the defensive occupancy check of `create_club` passes in a state
satisfying the invariant, the counter is strictly below the `u32` maximum
and the saturating increment is an exact increment. -/
theorem create_next_id (s : State) (hinv : ClubsInv s)
    (hniocc : ¬ ((s.clubs (satAdd U32MAX s.clubCount 1)).isSome = true)) :
    s.clubCount < U32MAX ∧ satAdd U32MAX s.clubCount 1 = s.clubCount + 1 := by
  obtain ⟨hcnt, hiff⟩ := hinv
  by_cases hlt : s.clubCount < U32MAX
  · refine ⟨hlt, ?_⟩
    simp only [satAdd, Nat.min_def]
    split <;> omega
  · exfalso
    have heq : satAdd U32MAX s.clubCount 1 = U32MAX := by
      simp only [satAdd, Nat.min_def]
      split <;> omega
    apply hniocc
    rw [heq]
    refine (hiff U32MAX).mpr ⟨by decide, ?_⟩
    omega

/-- `create_club` preserves the club-id invariant. -/
theorem clubsInv_create (cfg : Cfg) (s : State) (a : Bool) (w : Nat)
    (nm : List Nat) (o : Nat) (h : ClubsInv s) :
    ClubsInv (create_club cfg s a w nm o).2 := by
  simp only [create_club]
  split
  · exact h
  · split
    · exact h
    · rename_i hniocc
      split
      · exact h
      · obtain ⟨hlt, hnid⟩ := create_next_id s h hniocc
        obtain ⟨hcnt, hiff⟩ := h
        constructor
        · dsimp only
          rw [hnid]
          omega
        · intro i
          dsimp only
          rw [hnid]
          simp only [updateMap]
          by_cases hi : i = s.clubCount + 1
          · subst hi
            simp
          · rw [if_neg hi, hiff i]
            omega

/-- Every operation preserves the club-id invariant: `create_club` inserts
exactly at `count + 1`, the membership operations never touch the `Clubs`
map, and the owner/fee mutations only rewrite existing records in
place. -/
theorem clubsInv_applyOp (cfg : Cfg) (s : State) (op : Op) (h : ClubsInv s) :
    ClubsInv (applyOp cfg s op) := by
  cases op with
  | createClub a w nm o => exact clubsInv_create cfg s a w nm o h
  | addMember w c m =>
    simp only [applyOp, add_member]
    repeat' split
    all_goals exact h
  | extendMembership w c y =>
    simp only [applyOp, extend_membership, extendCommit]
    repeat' split
    all_goals exact h
  | transferOwnership w c o =>
    simp only [applyOp, transfer_ownership]
    split
    · exact h
    · split
      · exact h
      · rename_i club hc
        split
        · obtain ⟨hcnt, hiff⟩ := h
          refine ⟨hcnt, fun i => ?_⟩
          dsimp only
          simp only [updateMap]
          by_cases hi : i = c
          · subst hi
            have hsome : (s.clubs i).isSome = true := by rw [hc]; rfl
            simp
            exact (hiff i).mp hsome
          · rw [if_neg hi]
            exact hiff i
        · exact h
  | setAnnualFee w c f =>
    simp only [applyOp, set_annual_fee]
    split
    · exact h
    · split
      · split
        · exact h
        · rename_i hc hown hfee
          obtain ⟨hcnt, hiff⟩ := h
          refine ⟨hcnt, fun i => ?_⟩
          dsimp only
          simp only [updateMap]
          by_cases hi : i = c
          · subst hi
            have hsome : (s.clubs i).isSome = true := by
              cases hcl : s.clubs i
              · rw [hcl] at hc; simp at hc
              · rfl
            simp
            exact (hiff i).mp hsome
          · rw [if_neg hi]
            exact hiff i
      · exact h
  | advanceBlock n => exact h

/-- A fold of operations from an invariant state keeps the invariant. -/
theorem clubsInv_foldl (cfg : Cfg) (s : State) (ops : List Op) (h : ClubsInv s) :
    ClubsInv (List.foldl (applyOp cfg) s ops) := by
  induction ops generalizing s with
  | nil => exact h
  | cons op rest ih => exact ih _ (clubsInv_applyOp cfg s op h)

/-- Every reachable state satisfies the club-id invariant. -/
theorem clubsInv_reachable (cfg : Cfg) (s : State) (h : Reachable cfg s) :
    ClubsInv s := by
  obtain ⟨bal, bn, ops, rfl⟩ := h
  exact clubsInv_foldl cfg _ ops (clubsInv_init bal bn)

/-- C5: club IDs form the strictly increasing sequence 1, 2, 3, … — in
every state reachable by any interleaving of the five operations (and
clock advances), a club record exists for ID `i` only if
`1 ≤ i ≤ count`, and every successful `create_club` from such a state
inserts exactly at ID `count + 1` (incrementing the count and touching no
other ID). -/
theorem C5_create_club_sequential_ids (cfg : Cfg) (s : State)
    (hr : Reachable cfg s) :
    (∀ i : Nat, (s.clubs i).isSome → 1 ≤ i ∧ i ≤ s.clubCount) ∧
    (∀ (a : Bool) (w : Nat) (nm : List Nat) (o : Nat) (s' : State),
      create_club cfg s a w nm o = (.ok, s') →
      s'.clubCount = s.clubCount + 1 ∧
      s'.clubs (s.clubCount + 1) = some ⟨nm, o, 0⟩ ∧
      ∀ j : Nat, j ≠ s.clubCount + 1 → s'.clubs j = s.clubs j) := by
  have hinv := clubsInv_reachable cfg s hr
  refine ⟨fun i hi => (hinv.2 i).mp hi, ?_⟩
  intro a w nm o s' h
  simp only [create_club] at h
  split at h
  · simp at h
  · split at h
    · simp at h
    · rename_i hniocc
      split at h
      · simp at h
      · obtain ⟨hlt, hnid⟩ := create_next_id s hinv hniocc
        simp only [Prod.mk.injEq, true_and] at h
        subst h
        refine ⟨hnid, ?_, ?_⟩
        · dsimp only
          rw [hnid]
          simp [updateMap]
        · intro j hj
          dsimp only
          rw [hnid]
          simp [updateMap, hj]

/-- C5 witness: instantiated at the reachable genesis state (empty
operation list), giving the only-if direction of the ID invariant and the
insertion behavior of `create_club` at count 0. -/
theorem C5_create_club_sequential_ids_witness :
    (∀ i : Nat, ((initState (fun _ => 100) 0).clubs i).isSome →
      1 ≤ i ∧ i ≤ (initState (fun _ => 100) 0).clubCount) ∧
    (∀ (a : Bool) (w : Nat) (nm : List Nat) (o : Nat) (s' : State),
      create_club mockCfg (initState (fun _ => 100) 0) a w nm o = (.ok, s') →
      s'.clubCount = (initState (fun _ => 100) 0).clubCount + 1 ∧
      s'.clubs ((initState (fun _ => 100) 0).clubCount + 1) = some ⟨nm, o, 0⟩ ∧
      ∀ j : Nat, j ≠ (initState (fun _ => 100) 0).clubCount + 1 →
        s'.clubs j = (initState (fun _ => 100) 0).clubs j) :=
  C5_create_club_sequential_ids mockCfg (initState (fun _ => 100) 0)
    ⟨fun _ => 100, 0, [], rfl⟩
